import Mathlib

/-!
Shallow embedding of the AI-powered video-interview MVP core
(src/services/ai_services.py and src/main.py).

External services (the two text-generation chains, text-to-speech, the
remote media pipeline, and the evaluation chain) are modelled as
environments: each call site receives its outcome as data, so the
embedding captures exactly the control flow of the Python source while
quantifying over every behaviour of the external world.
-/

namespace InterviewBot

/-! ### Python string primitives used by the source -/

/-- Whitespace characters removed by Python str.strip (ASCII subset). -/
def isPyWs (c : Char) : Bool :=
  c = ' ' || c = '\t' || c = '\n' || c = '\r' || c = '\x0b' || c = '\x0c'

/-- Right-trim of a character list, as done by the right half of str.strip. -/
def rstripList (l : List Char) : List Char :=
  (l.reverse.dropWhile isPyWs).reverse

/-- Python str.strip: remove leading and trailing whitespace. -/
def pyStrip (s : String) : String :=
  String.mk ((rstripList s.data).dropWhile isPyWs)

/-- Python str.split(sep) for a single-character separator, on char lists:
empty input yields one empty piece, and every separator occurrence starts
a new piece. -/
def pySplitChar (sep : Char) : List Char → List (List Char)
  | [] => [[]]
  | c :: rest =>
    let r := pySplitChar sep rest
    if c = sep then [] :: r
    else
      match r with
      | [] => [[c]]
      | p :: ps => (c :: p) :: ps

/-- Python questions_raw.split(chr 10). -/
def pySplitNl (s : String) : List String :=
  (pySplitChar '\n' s.data).map String.mk

/-- Python sep.join(list). -/
def pyJoin (sep : String) : List String → String
  | [] => ""
  | [s] => s
  | s :: rest => s ++ sep ++ pyJoin sep rest

/-- First character of a character list is a decimal digit. -/
def firstIsDigitL : List Char → Bool
  | [] => false
  | c :: _ => c.isDigit

/-- True when the string is non-empty and its first character is a decimal
digit: Python s and s[0].isdigit() on an already stripped string. -/
def firstIsDigit (s : String) : Bool :=
  firstIsDigitL s.data

/-- Spec-side predicate, from the specification text: the first non-space
character of the line is a decimal digit. -/
def first_nonspace_is_digit (s : String) : Bool :=
  firstIsDigitL (s.data.dropWhile (fun c => c = ' '))

/-- Spec-side question parsing, following the specification text: split on
line breaks, trim whitespace, discard empty lines, keep only lines whose
first non-space character is a decimal digit. -/
def questions_spec (raw : String) : List String :=
  (((pySplitNl raw).map pyStrip).filter (fun q => !(q == ""))).filter
    first_nonspace_is_digit

/-- Tail of a separated join: the separator before each element. Helper
for relating pyJoin to the library intercalate. -/
def sepJoinTail (sep : String) : List String → String
  | [] => ""
  | r :: rest => sep ++ r ++ sepJoinTail sep rest

/-! ### ai_services.py : content generation -/

/-- Environment of one generate_interview_content call: the outcomes the
external services would give to each of the three outbound calls. -/
structure GenEnv where
  introCall : Except Unit String
  questionsCall : Except Unit String
  ttsCall : Except Unit String

/-- Result mapping built by generate_interview_content. -/
structure GeneratedContent where
  introduction : String
  questions : List String
  greetingAudio : Option String
deriving DecidableEq

/-- text_to_speech: try the TTS call and return the audio payload, or
swallow any exception and return None. -/
def text_to_speech (ttsCall : Except Unit String) : Option String :=
  match ttsCall with
  | Except.ok audio => some audio
  | Except.error _ => none

/-- The question-parsing list comprehension of generate_interview_content:
strip each line of questions_raw.split(chr 10) and keep it when the
stripped line is truthy and starts with a digit. -/
def questions_list (questions_raw : String) : List String :=
  ((pySplitNl questions_raw).filter
    (fun q => !(pyStrip q == "") && firstIsDigit (pyStrip q))).map pyStrip

/-- generate_interview_content: gather the two required text calls
(either failure propagates), then attempt TTS non-fatally, then parse
the questions and build the result mapping. -/
def generate_interview_content (env : GenEnv) : Except Unit GeneratedContent :=
  match env.introCall, env.questionsCall with
  | Except.ok intro_text, Except.ok questions_raw =>
      Except.ok
        { introduction := intro_text
          questions := questions_list questions_raw
          greetingAudio := text_to_speech env.ttsCall }
  | Except.error e, _ => Except.error e
  | Except.ok _, Except.error e => Except.error e

/-! ### ai_services.py : transcription -/

/-- States of a remote media file in the external pipeline. -/
inductive FileState
  | uploading
  | processing
  | ready
  | failed
deriving DecidableEq

/-- Abstract errors a transcribe_video_file call can surface. -/
inductive TError
  | uploadFailed
  | pollFailed
  | processingFailed
  | extractFailed
  | deleteFailed
deriving DecidableEq

/-- Environment of one transcribe_video_file call: whether the upload
succeeds (and the state of the returned file), the successive results of
the get_file polls, the outcome of the extraction call, and whether
delete_file succeeds. -/
structure TEnv where
  upload : Option FileState
  polls : List (Except Unit FileState)
  extract : Except Unit String
  deleteOk : Bool

/-- Observable result of one transcribe_video_file call: the value
returned or error raised, whether delete_file was invoked, and whether
the remote handle ended up deleted. -/
structure TResult where
  outcome : Except TError String
  deleteCalled : Bool
  handleDeleted : Bool

/-- The while-loop of transcribe_video_file: starting from the uploaded
state, poll while the state is PROCESSING. Returns the first
non-PROCESSING state, an error if a poll raises, or none when the finite
poll trace never leaves PROCESSING (the loop does not terminate). -/
def pollTerminal : FileState → List (Except Unit FileState) → Option (Except Unit FileState)
  | FileState.processing, [] => none
  | FileState.processing, Except.error e :: _ => some (Except.error e)
  | FileState.processing, Except.ok s :: rest => pollTerminal s rest
  | st, _ => some (Except.ok st)

/-- transcribe_video_file: upload, poll to a terminal state, raise on
FAILED, otherwise extract the transcript, and in the finally block
delete the remote file whenever one was created. A failing delete_file
raises out of the finally block, replacing the pending outcome. Returns
none when the polling loop never terminates. -/
def transcribe_video_file (env : TEnv) : Option TResult :=
  match env.upload with
  | none =>
      some { outcome := Except.error TError.uploadFailed
             deleteCalled := false
             handleDeleted := false }
  | some st0 =>
    match pollTerminal st0 env.polls with
    | none => none
    | some polled =>
      let body : Except TError String :=
        match polled with
        | Except.error _ => Except.error TError.pollFailed
        | Except.ok terminal =>
          if terminal = FileState.failed then Except.error TError.processingFailed
          else
            match env.extract with
            | Except.ok text => Except.ok text
            | Except.error _ => Except.error TError.extractFailed
      if env.deleteOk then
        some { outcome := body, deleteCalled := true, handleDeleted := true }
      else
        some { outcome := Except.error TError.deleteFailed
               deleteCalled := true
               handleDeleted := false }

/-! ### ai_services.py : evaluation -/

/-- The fixed sentinel returned when no transcript exists. -/
def no_responses_sentinel : String :=
  "No valid responses were submitted for this interview."

/-- evaluate_transcription: short-circuit to the sentinel when the
transcript is falsy or whitespace-only, making no external call;
otherwise issue exactly one evaluation-chain call and return its
outcome. The second component counts the external calls made. -/
def evaluate_transcription (evalChain : Except Unit String)
    (role_title full_transcription : String) : Except Unit String × Nat :=
  if full_transcription = "" ∨ pyStrip full_transcription = "" then
    (Except.ok no_responses_sentinel, 0)
  else
    (evalChain, 1)

/-! ### main.py : session store and endpoints -/

/-- The interview_data dict: one optional entry per key it may hold. -/
structure Session where
  role_title : Option String
  questions : Option (List String)
  responses : Option (List String)
deriving DecidableEq

/-- interview_data is initialised to the empty dict. -/
def interview_data_init : Session :=
  { role_title := none, questions := none, responses := none }

/-- Response of the start_interview endpoint. -/
inductive StartResp
  | ok (content : GeneratedContent)
  | serverError
deriving DecidableEq

/-- start_interview endpoint: call generate_interview_content; on
success overwrite the three session keys and return the content; on any
exception return a 500 response, leaving the session untouched. -/
def start_interview (env : GenEnv) (role_title role_description : String)
    (s : Session) : Session × StartResp :=
  match generate_interview_content env with
  | Except.ok content =>
      ({ role_title := some role_title
         questions := some content.questions
         responses := some [] },
       StartResp.ok content)
  | Except.error _ => (s, StartResp.serverError)

/-- Response of the submit_response endpoint. -/
inductive SubmitResp
  | success (transcription : String)
  | serverError
deriving DecidableEq

/-- submit_response endpoint (transcription outcome abstracted): on
transcription success, interview_data.get(key, fresh list).append(text)
appends to the stored list when the responses key exists and to a
discarded fresh list otherwise; on failure return a 500 response. -/
def submit_response (transcribed : Except Unit String) (s : Session) :
    Session × SubmitResp :=
  match transcribed with
  | Except.error _ => (s, SubmitResp.serverError)
  | Except.ok text =>
    match s.responses with
    | some rs =>
        ({ s with responses := some (rs ++ [text]) }, SubmitResp.success text)
    | none => (s, SubmitResp.success text)

/-- The transcript built by get_recruiter_report:
join of interview_data.get with a blank-line separator over the stored
responses, defaulting to the empty list. -/
def joined_responses (s : Session) : String :=
  pyJoin "\n\n" (s.responses.getD [])

/-- The fixed fallback text rendered when report generation fails. -/
def report_error_message : String :=
  "Could not generate the evaluation due to a server error. Please check the logs."

/-- What the recruiter-report page shows, plus a ghost counter of the
external evaluation calls made while producing it. -/
structure ReportPage where
  role_title : String
  evaluation : String
  evalCalls : Nat
deriving DecidableEq

/-- get_recruiter_report endpoint: join the stored responses, default
the role title to N/A, call evaluate_transcription, and on an internal
error render the fixed fallback message instead of propagating. -/
def get_recruiter_report (evalChain : Except Unit String) (s : Session) :
    ReportPage :=
  let ft := joined_responses s
  let rt := s.role_title.getD "N/A"
  match evaluate_transcription evalChain rt ft with
  | (Except.ok ev, n) =>
      { role_title := rt, evaluation := ev, evalCalls := n }
  | (Except.error _, n) =>
      { role_title := rt, evaluation := report_error_message, evalCalls := n }

/-! ## Helper lemmas -/

theorem pyStrip_data (s : String) :
    (pyStrip s).data = (rstripList s.data).dropWhile isPyWs := rfl

theorem dropWhile_head_false {α : Type} {p : α → Bool} :
    ∀ (l : List α) {c : α} {cs : List α}, l.dropWhile p = c :: cs → p c = false := by
  intro l
  induction l with
  | nil => intro c cs h; simp [List.dropWhile] at h
  | cons a as ih =>
    intro c cs h
    by_cases hp : p a = true
    · rw [List.dropWhile_cons, if_pos hp] at h
      exact ih h
    · rw [List.dropWhile_cons, if_neg hp] at h
      cases h
      exact Bool.not_eq_true _ |>.mp hp

theorem pyStrip_of_empty : pyStrip "" = "" := rfl

theorem pyStrip_head_not_ws {s : String} {c : Char} {cs : List Char}
    (h : (pyStrip s).data = c :: cs) : isPyWs c = false := by
  rw [pyStrip_data] at h
  exact dropWhile_head_false _ h

theorem first_nonspace_eq_first {s : String} (h : pyStrip s ≠ "") :
    first_nonspace_is_digit (pyStrip s) = firstIsDigit (pyStrip s) := by
  cases hd : (pyStrip s).data with
  | nil =>
    have hdd : (pyStrip s).data = ("" : String).data := hd
    exact absurd (String.ext hdd) h
  | cons c cs =>
    have hws : isPyWs c = false := pyStrip_head_not_ws hd
    have hsp : ¬(c = ' ') := by
      intro he
      rw [he] at hws
      simp [isPyWs] at hws
    simp [first_nonspace_is_digit, firstIsDigit, hd, List.dropWhile_cons, hsp]

theorem intercalate_go_eq (sep : String) :
    ∀ (as : List String) (acc : String),
      String.intercalate.go acc sep as = acc ++ sepJoinTail sep as := by
  intro as
  induction as with
  | nil => intro acc; simp [String.intercalate.go, sepJoinTail]
  | cons a rest ih =>
    intro acc
    rw [String.intercalate.go, ih, sepJoinTail]
    simp [String.append_assoc]

theorem pyJoin_cons (sep : String) :
    ∀ (rest : List String) (r : String),
      pyJoin sep (r :: rest) = r ++ sepJoinTail sep rest := by
  intro rest
  induction rest with
  | nil => intro r; simp [pyJoin, sepJoinTail]
  | cons b bs ih =>
    intro r
    rw [show pyJoin sep (r :: b :: bs) = r ++ sep ++ pyJoin sep (b :: bs) from rfl]
    rw [ih, sepJoinTail]
    simp [String.append_assoc]

theorem pyJoin_eq_intercalate (sep : String) (rs : List String) :
    pyJoin sep rs = String.intercalate sep rs := by
  cases rs with
  | nil => rfl
  | cons a as =>
    rw [String.intercalate, intercalate_go_eq, pyJoin_cons]

theorem pyStrip_ne_empty_of (t : String) (h : pyStrip t ≠ "") : t ≠ "" := by
  intro he
  rw [he] at h
  exact h pyStrip_of_empty

/-! ## Claim theorems -/

/-- Claim C1: in every invocation of transcribe_video_file in which the
remote upload succeeded, the delete call on the remote handle is made
before the function returns, on every exit path (successful
transcription, FAILED terminal state, exception during polling or
extraction), and whenever that delete succeeds the handle is deleted. -/
theorem transcribe_always_deletes (env : TEnv) (r : TResult)
    (hup : env.upload.isSome = true)
    (hret : transcribe_video_file env = some r) :
    r.deleteCalled = true ∧ (env.deleteOk = true → r.handleDeleted = true) := by
  cases hu : env.upload with
  | none => rw [hu] at hup; simp at hup
  | some st0 =>
    unfold transcribe_video_file at hret
    rw [hu] at hret
    dsimp only at hret
    cases hp : pollTerminal st0 env.polls with
    | none => rw [hp] at hret; simp at hret
    | some polled =>
      rw [hp] at hret
      cases hd : env.deleteOk with
      | false =>
        rw [hd] at hret
        simp only [Bool.false_eq_true, if_false, Option.some.injEq] at hret
        rw [← hret]
        exact ⟨rfl, fun hcon => absurd hcon Bool.false_ne_true⟩
      | true =>
        rw [hd] at hret
        simp only [if_true, Option.some.injEq] at hret
        rw [← hret]
        exact ⟨rfl, fun _ => rfl⟩

/-- Witness for C1 at a concrete environment: one PROCESSING poll, then
READY, extraction succeeds, deletion succeeds. -/
theorem transcribe_always_deletes_witness :
    (TResult.deleteCalled
        { outcome := Except.ok "text", deleteCalled := true, handleDeleted := true } = true) ∧
    (TEnv.deleteOk
        { upload := some FileState.processing, polls := [Except.ok FileState.ready],
          extract := Except.ok "text", deleteOk := true } = true →
      TResult.handleDeleted
        { outcome := Except.ok "text", deleteCalled := true, handleDeleted := true } = true) :=
  transcribe_always_deletes
    { upload := some FileState.processing, polls := [Except.ok FileState.ready],
      extract := Except.ok "text", deleteOk := true }
    { outcome := Except.ok "text", deleteCalled := true, handleDeleted := true }
    rfl rfl

/-- Claim C2 (code behaviour at the failing input): when the upload and
the transcription both succeed but delete_file raises, the deletion
error replaces the successful transcript instead of being logged:
the call raises the deletion error and the transcript is lost. -/
theorem transcribe_delete_failure_replaces_result :
    transcribe_video_file
        { upload := some FileState.ready, polls := [],
          extract := Except.ok "hello world", deleteOk := false } =
      some { outcome := Except.error TError.deleteFailed
             deleteCalled := true
             handleDeleted := false } := rfl

/-- Claim C5 counterexample: a state sequence ending in the terminal
state READY for which transcribe_video_file returns an empty transcript,
refuting that the returned text is always non-empty. -/
theorem transcribe_ready_empty_transcript :
    pollTerminal FileState.processing [Except.ok FileState.ready] =
      some (Except.ok FileState.ready) ∧
    transcribe_video_file
        { upload := some FileState.processing, polls := [Except.ok FileState.ready],
          extract := Except.ok "", deleteOk := true } =
      some { outcome := Except.ok "", deleteCalled := true, handleDeleted := true } ∧
    ("" : String).length = 0 :=
  ⟨rfl, rfl, rfl⟩

/-- Claim C5 as amended: when the upload succeeds and deletion succeeds,
a state sequence ending in READY with a successful extraction makes
transcribe_video_file return exactly the extraction text (non-empty
whenever that text is non-empty), and a state sequence ending in FAILED
makes it raise the processing-failed error. -/
theorem transcribe_terminal_behavior (env : TEnv) (st0 : FileState)
    (hup : env.upload = some st0) (hdel : env.deleteOk = true) :
    (∀ text, pollTerminal st0 env.polls = some (Except.ok FileState.ready) →
        env.extract = Except.ok text →
        transcribe_video_file env =
          some { outcome := Except.ok text, deleteCalled := true, handleDeleted := true }) ∧
    (pollTerminal st0 env.polls = some (Except.ok FileState.failed) →
        transcribe_video_file env =
          some { outcome := Except.error TError.processingFailed,
                 deleteCalled := true, handleDeleted := true }) := by
  constructor
  · intro text hp he
    unfold transcribe_video_file
    rw [hup]
    dsimp only
    rw [hp, he, hdel]
    simp
  · intro hp
    unfold transcribe_video_file
    rw [hup]
    dsimp only
    rw [hp, hdel]
    simp

/-- Witness for C5 (amended) at a concrete environment. -/
theorem transcribe_terminal_behavior_witness :
    transcribe_video_file
        { upload := some FileState.processing, polls := [Except.ok FileState.ready],
          extract := Except.ok "spoken words", deleteOk := true } =
      some { outcome := Except.ok "spoken words", deleteCalled := true,
             handleDeleted := true } :=
  (transcribe_terminal_behavior
      { upload := some FileState.processing, polls := [Except.ok FileState.ready],
        extract := Except.ok "spoken words", deleteOk := true }
      FileState.processing rfl rfl).1 "spoken words" rfl rfl

/-- Claim C3: if either required text-generation call fails,
start_interview returns the server-error response and performs no
partial session mutation: the whole session record keeps its prior
value. -/
theorem start_interview_no_partial_mutation (env : GenEnv)
    (role_title role_description : String) (s : Session)
    (h : env.introCall = Except.error () ∨ env.questionsCall = Except.error ()) :
    (start_interview env role_title role_description s).1 = s ∧
    (start_interview env role_title role_description s).2 = StartResp.serverError := by
  rcases h with h | h
  · simp [start_interview, generate_interview_content, h]
  · cases hi : env.introCall <;>
      simp [start_interview, generate_interview_content, h, hi]

/-- Witness for C3: the introduction call fails on a prior session. -/
theorem start_interview_no_partial_mutation_witness :
    (start_interview
        { introCall := Except.error (), questionsCall := Except.ok "1. Q",
          ttsCall := Except.ok "audio" }
        "Backend Engineer" "Build APIs" interview_data_init).1 = interview_data_init ∧
    (start_interview
        { introCall := Except.error (), questionsCall := Except.ok "1. Q",
          ttsCall := Except.ok "audio" }
        "Backend Engineer" "Build APIs" interview_data_init).2 = StartResp.serverError :=
  start_interview_no_partial_mutation _ _ _ _ (Or.inl rfl)

/-- Claim C4: when both required text-generation calls succeed, a
failure of the speech-synthesis step never propagates:
generate_interview_content still returns successfully, with the
generated introduction, the parsed questions, and greetingAudio absent. -/
theorem generate_tolerates_tts_failure (env : GenEnv)
    (intro_text questions_raw : String)
    (hi : env.introCall = Except.ok intro_text)
    (hq : env.questionsCall = Except.ok questions_raw)
    (ht : env.ttsCall = Except.error ()) :
    generate_interview_content env =
      Except.ok { introduction := intro_text
                  questions := questions_list questions_raw
                  greetingAudio := none } := by
  simp [generate_interview_content, hi, hq, text_to_speech, ht]

/-- Witness for C4 at a concrete environment with a failing TTS call. -/
theorem generate_tolerates_tts_failure_witness :
    generate_interview_content
        { introCall := Except.ok "Welcome to the interview",
          questionsCall := Except.ok "1. What is REST?",
          ttsCall := Except.error () } =
      Except.ok { introduction := "Welcome to the interview",
                  questions := questions_list "1. What is REST?",
                  greetingAudio := none } :=
  generate_tolerates_tts_failure _ "Welcome to the interview" "1. What is REST?"
    rfl rfl rfl

/-- Claim C6: the question parsing of generate_interview_content agrees
with the specification pipeline (split on line breaks, trim, discard
empty lines, keep lines whose first non-space character is a decimal
digit), and every entry of the resulting sequence is non-empty with a
decimal digit as first character. -/
theorem questions_list_correct (raw : String) :
    questions_list raw = questions_spec raw ∧
    ∀ q, q ∈ questions_list raw → q ≠ "" ∧ firstIsDigit q = true := by
  constructor
  · unfold questions_list questions_spec
    rw [List.filter_filter, List.filter_map]
    apply congrArg (List.map pyStrip)
    apply List.filter_congr
    intro a _
    by_cases h : pyStrip a = ""
    · simp [Function.comp, h, first_nonspace_is_digit, firstIsDigitL]
    · simp [Function.comp, h, first_nonspace_eq_first h, Bool.and_comm]
  · intro q hq
    unfold questions_list at hq
    simp only [List.mem_map, List.mem_filter, Bool.and_eq_true, Bool.not_eq_true',
      beq_eq_false_iff_ne] at hq
    obtain ⟨a, ⟨_, hne, hdig⟩, rfl⟩ := hq
    exact ⟨hne, hdig⟩

/-- Witness for C6: a raw reply with preamble and footer parses to the
single numbered line, which is non-empty and starts with a digit. -/
theorem questions_list_correct_witness :
    questions_list "Sure, here you go:\n1. What is REST?\nGood luck" =
      ["1. What is REST?"] ∧
    "1. What is REST?" ≠ "" ∧ firstIsDigit "1. What is REST?" = true := by
  have hv : questions_list "Sure, here you go:\n1. What is REST?\nGood luck" =
      ["1. What is REST?"] := by decide
  refine ⟨hv, ?_⟩
  exact (questions_list_correct "Sure, here you go:\n1. What is REST?\nGood luck").2
    "1. What is REST?" (hv ▸ List.mem_singleton.mpr rfl)

/-- Claim C7: for any role title, evaluate_transcription returns the
fixed sentinel immediately with no external call when the transcript is
empty or whitespace-only, and otherwise issues exactly one evaluation
call and returns its outcome. -/
theorem evaluate_short_circuit (evalChain : Except Unit String)
    (role_title transcript : String) :
    (pyStrip transcript = "" →
        evaluate_transcription evalChain role_title transcript =
          (Except.ok no_responses_sentinel, 0)) ∧
    (pyStrip transcript ≠ "" →
        evaluate_transcription evalChain role_title transcript = (evalChain, 1)) := by
  constructor
  · intro h
    simp [evaluate_transcription, h]
  · intro h
    have h0 : transcript ≠ "" := pyStrip_ne_empty_of transcript h
    simp [evaluate_transcription, h, h0]

/-- Witness for C7: a whitespace-only transcript short-circuits with no
call; a real transcript issues one call and returns its text. -/
theorem evaluate_short_circuit_witness :
    evaluate_transcription (Except.ok "Report") "Engineer" " " =
      (Except.ok no_responses_sentinel, 0) ∧
    evaluate_transcription (Except.ok "Report") "Engineer" "Good answer" =
      (Except.ok "Report", 1) :=
  ⟨(evaluate_short_circuit (Except.ok "Report") "Engineer" " ").1 rfl,
   (evaluate_short_circuit (Except.ok "Report") "Engineer" "Good answer").2
     (by decide)⟩

/-- Claim C8: the transcript get_recruiter_report hands to the evaluator
is the stored responses joined with a blank-line separator in stored
order, and when the evaluation call raises an internal error the page
shows the fixed fallback string instead of propagating the error. -/
theorem report_transcript_and_fallback (evalChain : Except Unit String)
    (s : Session) (rs : List String) (hrs : s.responses = some rs) :
    joined_responses s = String.intercalate "\n\n" rs ∧
    (evalChain = Except.error () → pyStrip (joined_responses s) ≠ "" →
      (get_recruiter_report evalChain s).evaluation = report_error_message) := by
  have hj : joined_responses s = pyJoin "\n\n" rs := by
    simp [joined_responses, hrs]
  refine ⟨hj.trans (pyJoin_eq_intercalate "\n\n" rs), ?_⟩
  intro hc hne
  have h0 : joined_responses s ≠ "" := pyStrip_ne_empty_of _ hne
  simp [get_recruiter_report, evaluate_transcription, joined_responses] at h0 hne ⊢
  simp [h0, hne, hc]

/-- Witness for C8: two stored answers and a failing evaluation call. -/
theorem report_transcript_and_fallback_witness :
    joined_responses
        { role_title := some "Engineer", questions := some ["1. Q"],
          responses := some ["first answer", "second answer"] } =
      String.intercalate "\n\n" ["first answer", "second answer"] ∧
    (get_recruiter_report (Except.error ())
        { role_title := some "Engineer", questions := some ["1. Q"],
          responses := some ["first answer", "second answer"] }).evaluation =
      report_error_message := by
  have h := report_transcript_and_fallback (Except.error ())
    { role_title := some "Engineer", questions := some ["1. Q"],
      responses := some ["first answer", "second answer"] }
    ["first answer", "second answer"] rfl
  exact ⟨h.1, h.2 rfl (by decide)⟩

/-- Claim C9: submitting a response before any successful interview
start (responses key absent) still returns a success response carrying
the transcript, but leaves the session store completely unchanged, so a
later report sees nothing of it. -/
theorem submit_before_start_discards (text : String)
    (evalChain : Except Unit String) (s : Session) (h : s.responses = none) :
    submit_response (Except.ok text) s = (s, SubmitResp.success text) ∧
    get_recruiter_report evalChain (submit_response (Except.ok text) s).1 =
      get_recruiter_report evalChain s := by
  have h1 : submit_response (Except.ok text) s = (s, SubmitResp.success text) := by
    simp [submit_response, h]
  exact ⟨h1, by rw [h1]⟩

/-- Witness for C9 on the initial empty session. -/
theorem submit_before_start_discards_witness :
    submit_response (Except.ok "my answer") interview_data_init =
      (interview_data_init, SubmitResp.success "my answer") ∧
    get_recruiter_report (Except.ok "Report")
        (submit_response (Except.ok "my answer") interview_data_init).1 =
      get_recruiter_report (Except.ok "Report") interview_data_init :=
  submit_before_start_discards "my answer" (Except.ok "Report")
    interview_data_init rfl

/-- Claim C10: a report requested before any successful interview start
never fails: the role title defaults to N/A, the joined transcript is
empty, the page shows exactly the no-responses sentinel, and no external
evaluation call is made. -/
theorem report_before_start (evalChain : Except Unit String) :
    get_recruiter_report evalChain interview_data_init =
      { role_title := "N/A", evaluation := no_responses_sentinel, evalCalls := 0 } ∧
    joined_responses interview_data_init = "" := ⟨rfl, rfl⟩

end InterviewBot
